import Mathlib

set_option maxHeartbeats 1000000
set_option autoImplicit false

/-!
Shallow embedding of the rustify endpoint execution pipeline
(src/endpoint.rs): URL construction (`build_url`), request-body
encoding, dispatch through the transport collaborator, response
transformation and decoding (`parse`), orchestrated by
`Endpoint::execute`.

Strings are manipulated as `List Char` where the source manipulates the
URL serialization character by character; request/response bodies are
`List Nat` byte sequences (each element a `u8` value below 256).
-/

/-- Errors of the `url` crate's parser as surfaced by rustify's
`ClientError::UrlParseError`; only the cases the modelled parser can
produce are listed. -/
inductive UrlError where
  | relativeUrlWithoutBase
  | emptyHost
  | invalidScheme
deriving DecidableEq, Repr

/-- Modelled from the `url` crate (external dependency of
src/endpoint.rs): the parsed URL state that `build_url` manipulates.
`path` is the path portion of the serialization (for hierarchical URLs
it begins with '/'); `cannotBeABase` records the crate's
cannot-be-a-base flag — `Url::path_segments_mut` returns `Err(())`
exactly when that flag is set (documented contract of the crate). -/
structure Url where
  scheme : String
  host : Option String
  cannotBeABase : Bool
  path : List Char
deriving DecidableEq, Repr

/-- Split a character list at the first ':', returning the parts before
and after it; `none` when there is no ':'. -/
def splitColon : List Char → Option (List Char × List Char)
  | [] => none
  | c :: rest =>
    if c = ':' then some ([], rest)
    else (splitColon rest).map (fun p => (c :: p.1, p.2))

/-- Split a character list at the first '/', returning the part before
it and the remainder starting with that '/' (or `[]` when absent). -/
def splitFirstSlash : List Char → List Char × List Char
  | [] => ([], [])
  | c :: rest =>
    if c = '/' then ([], c :: rest)
    else
      let p := splitFirstSlash rest
      (c :: p.1, p.2)

/-- Scheme syntax check of the URL standard: one alphabetic character
followed by alphanumerics, '+', '-' or '.'. -/
def schemeOk : List Char → Bool
  | [] => false
  | c :: rest => c.isAlpha && rest.all (fun d => d.isAlphanum || d = '+' || d = '-' || d = '.')

/-- The special schemes of the URL standard as handled by the model
(`SchemeType::is_special` in the `url` crate); "file" is omitted
because file URLs are not modelled by the parser below. -/
def specialScheme (cs : List Char) : Bool :=
  cs == ['h', 't', 't', 'p'] || cs == ['h', 't', 't', 'p', 's'] ||
  cs == ['w', 's'] || cs == ['w', 's', 's'] || cs == ['f', 't', 'p']

/-- `SchemeType::from(self.url.scheme()).is_special()`, as computed at
the top of `PathSegmentsMut::extend`. -/
def Url.isSpecial (u : Url) : Bool := specialScheme u.scheme.data

/-- Modelled from the `url` crate's parser, restricted to the shapes
the pipeline distinguishes.  The scheme is lowercased as in the crate.
For the special schemes (http, https, ws, wss, ftp) any run of slashes
after the colon is skipped and an authority is parsed — so "http:foo"
and "http:/foo" mean "http://foo/", as in the crate — and an empty host
is a parse error.  For other schemes, `scheme://host/path` is
hierarchical with a host, `scheme:/path` hierarchical without a host
(can be a base), and anything else an opaque path that cannot be a base
(e.g. `mailto:user@host`).  Input without a valid scheme is a parse
error.  Not modelled: percent-encoding during base parsing, userinfo,
ports, query, fragment, and file URLs (their empty host is rejected
here); a hierarchical URL with an empty path is normalized to path "/"
(under `extend` the crate treats the two identically, so the
normalization is behavior-preserving for `build_url`). -/
def Url.parse (s : String) : Except UrlError Url :=
  match splitColon s.data with
  | none => .error .relativeUrlWithoutBase
  | some (schemeCs, rest) =>
    if schemeOk schemeCs then
      if specialScheme (schemeCs.map Char.toLower) then
        if (splitFirstSlash (rest.dropWhile (fun c => c = '/'))).1 = [] then
          .error .emptyHost
        else
          .ok { scheme := String.mk (schemeCs.map Char.toLower),
                host := some (String.mk
                  (splitFirstSlash (rest.dropWhile (fun c => c = '/'))).1),
                cannotBeABase := false,
                path := if (splitFirstSlash (rest.dropWhile (fun c => c = '/'))).2 = []
                        then ['/']
                        else (splitFirstSlash (rest.dropWhile (fun c => c = '/'))).2 }
      else
        match rest with
        | '/' :: '/' :: rest2 =>
          if (splitFirstSlash rest2).1 = [] then .error .emptyHost
          else
            .ok { scheme := String.mk (schemeCs.map Char.toLower),
                  host := some (String.mk (splitFirstSlash rest2).1),
                  cannotBeABase := false,
                  path := if (splitFirstSlash rest2).2 = [] then ['/']
                          else (splitFirstSlash rest2).2 }
        | '/' :: rest2 =>
          .ok { scheme := String.mk (schemeCs.map Char.toLower), host := none,
                cannotBeABase := false, path := '/' :: rest2 }
        | _ =>
          .ok { scheme := String.mk (schemeCs.map Char.toLower), host := none,
                cannotBeABase := true, path := rest }
    else .error .invalidScheme

/-- Prepend a character to the first chunk of a chunk list. -/
def consHead (c : Char) : List (List Char) → List (List Char)
  | [] => [[c]]
  | s :: ss => (c :: s) :: ss

/-- Rust's `str::split('/')` over the characters of a string: the list
of '/'-separated chunks.  Never empty; the empty string yields one empty
chunk, and `n` separators yield `n + 1` chunks. -/
def splitSlash : List Char → List (List Char)
  | [] => [[]]
  | c :: rest =>
    if c = '/' then [] :: splitSlash rest
    else consHead c (splitSlash rest)

/-- UTF-8 encoding of one character (Rust `String::into_bytes` on a
one-character string), as a list of byte values. -/
def utf8EncodeChar (c : Char) : List Nat :=
  let n := c.toNat
  if n < 128 then [n]
  else if n < 2048 then [192 + n / 64, 128 + n % 64]
  else if n < 65536 then [224 + n / 4096, 128 + (n / 64) % 64, 128 + n % 64]
  else [240 + n / 262144, 128 + (n / 4096) % 64, 128 + (n / 64) % 64, 128 + n % 64]

/-- UTF-8 encoding of a character list (Rust `String::into_bytes`). -/
def utf8Encode (cs : List Char) : List Nat :=
  cs.foldr (fun c acc => utf8EncodeChar c ++ acc) []

/-- Uppercase hexadecimal digit character for a value below 16 (the
percent-encoding crate emits uppercase hex). -/
def hexDigitUpper (n : Nat) : Char :=
  Char.ofNat (if n < 10 then 48 + n else 55 + n)

/-- The `url` crate's percent-encode set for one appended path segment:
`PATH_SEGMENT` — C0 controls and space, DEL, the double quote, '<',
'>', the backtick, '#', '?', the two curly brackets, '/' and '%' — or
`SPECIAL_PATH_SEGMENT`, which adds the backslash, when the URL's scheme
is special. -/
def inPathSegmentSet (special : Bool) (b : Nat) : Bool :=
  b ≤ 32 || b == 127 ||
  b == 34 || b == 60 || b == 62 || b == 96 ||
  b == 35 || b == 63 || b == 123 || b == 125 ||
  b == 47 || b == 37 ||
  (special && b == 92)

/-- `percent_encoding::utf8_percent_encode`, one byte at a time:
non-ASCII bytes and bytes in the set become '%' followed by two
uppercase hex digits; every other byte stays itself. -/
def percentEncodeByte (special : Bool) (b : Nat) : List Char :=
  if 127 < b || inPathSegmentSet special b then
    ['%', hexDigitUpper (b / 16), hexDigitUpper (b % 16)]
  else [Char.ofNat b]

/-- Percent-encode a whole byte sequence. -/
def percentEncodeBytes (special : Bool) (bs : List Nat) : List Char :=
  bs.foldr (fun b acc => percentEncodeByte special b ++ acc) []

/-- What `parse_path` in `Context::PathSegment` appends for one
segment: each byte of the segment's UTF-8 encoding, percent-encoded
over the (special) path-segment set. -/
def encodeSegment (special : Bool) (seg : List Char) : List Char :=
  percentEncodeBytes special (utf8Encode seg)

/-- Modelled from the `url` crate's `PathSegmentsMut::extend` loop body
for one segment: segments "." and ".." are skipped entirely; otherwise
a '/' is first appended to the serialization whenever the current path
is longer than the lone root slash, and then the segment is appended
percent-encoded by `parse_path` in `Context::PathSegment`.  An empty
segment therefore leaves an empty path segment behind whenever the path
was longer than "/". -/
def pushSeg (special : Bool) (p : List Char) (seg : List Char) : List Char :=
  if seg = ['.'] ∨ seg = ['.', '.'] then p
  else (if 1 < p.length then p ++ ['/'] else p) ++ encodeSegment special seg

/-- `PathSegmentsMut::extend`: fold `pushSeg` over the new segments,
the specialness of the URL's scheme being fixed up front. -/
def extendPath (special : Bool) (p : List Char) (segs : List (List Char)) : List Char :=
  segs.foldl (pushSeg special) p

/-- The error enum of rustify.  `errors.rs` is not under src/; the
variants and their field shapes are taken from their construction sites
in src/endpoint.rs and the spec's error taxonomy (§7).  Boxed error
sources are modelled by their payload: a message string, or, for the
UTF-8 conversion error, the number of bytes that were valid
(`FromUtf8Error::valid_up_to`).  `RequestError` stands for the
transport-side variants, which are opaque to the pipeline. -/
inductive ClientError where
  | UrlParseError (url : String) (source : UrlError)
  | DataParseError (source : String)
  | ResponseConversionError (source : Nat) (content : List Nat)
  | ResponseParseError (source : String) (content : String)
  | RequestError (source : String)
deriving DecidableEq, Repr

/-- Outcome of a pipeline stage: a normal `Result` value, or a panic (a
Rust `unwrap` failing).  Panics are modelled explicitly so that the
reachability of the `.unwrap()` inside `build_url` can be settled. -/
inductive Outcome (α : Type) where
  | panic
  | err (e : ClientError)
  | ok (a : α)
deriving DecidableEq, Repr

/-- src/endpoint.rs `build_url` (the endpoint argument is replaced by
the one piece of it that is used, `endpoint.action()`): parse the base,
mapping a parse failure to `UrlParseError` carrying the base string;
then `url.path_segments_mut().unwrap().extend(action.split('/'))`.
`path_segments_mut` fails exactly on cannot-be-a-base URLs, so the
`.unwrap()` panics there. -/
def build_url (action base : String) : Outcome Url :=
  match Url.parse base with
  | .error e => .err (.UrlParseError base e)
  | .ok u =>
    if u.cannotBeABase then .panic
    else .ok { u with
      path := extendPath u.isSpecial u.path (splitSlash action.data) }

/-- JSON value trees, modelling `serde_json::Value` and the output of
the endpoint's `Serialize` implementation (numbers are restricted to
integers; no claim depends on float formatting). -/
inductive Json where
  | null
  | bool (b : Bool)
  | num (n : Int)
  | str (s : String)
  | arr (elems : List Json)
  | obj (fields : List (String × Json))

/-- Decimal digit character for a value below 10. -/
def digitChar (n : Nat) : Char := Char.ofNat (48 + n)

/-- Lowercase hexadecimal digit character for a value below 16. -/
def hexDigit (n : Nat) : Char :=
  if n < 10 then digitChar n else Char.ofNat (97 + (n - 10))

/-- Decimal digits of a natural number, most significant first. -/
def natDigits (n : Nat) : List Char :=
  if n < 10 then [digitChar n]
  else natDigits (n / 10) ++ [digitChar (n % 10)]
termination_by n
decreasing_by omega

/-- Rust `Display` formatting of an integer (what serde_json emits for
integer numbers). -/
def renderInt (n : Int) : String :=
  match n with
  | .ofNat m => String.mk (natDigits m)
  | .negSucc m => String.mk ('-' :: natDigits (m + 1))

/-- serde_json's escaping of one character inside a JSON string
literal. -/
def escapeChar (c : Char) : List Char :=
  if c = '"' then ['\\', '"']
  else if c = '\\' then ['\\', '\\']
  else if c = '\x08' then ['\\', 'b']
  else if c = '\x0c' then ['\\', 'f']
  else if c = '\n' then ['\\', 'n']
  else if c = '\r' then ['\\', 'r']
  else if c = '\t' then ['\\', 't']
  else if c.toNat < 32 then
    ['\\', 'u', '0', '0', hexDigit (c.toNat / 16), hexDigit (c.toNat % 16)]
  else [c]

/-- serde_json's escaping of a whole string (without the surrounding
quotes). -/
def jsonEscape (s : String) : List Char :=
  s.data.foldr (fun c acc => escapeChar c ++ acc) []

mutual

/-- Compact rendering of a JSON value, as produced by
`serde_json::to_string`: no whitespace, object fields in order. -/
def Json.render : Json → String
  | .null => "null"
  | .bool true => "true"
  | .bool false => "false"
  | .num n => renderInt n
  | .str s => String.mk ('"' :: jsonEscape s ++ ['"'])
  | .arr xs => "[" ++ renderElems xs ++ "]"
  | .obj fs => "\x7b" ++ renderFields fs ++ "\x7d"

/-- Comma-separated rendering of array elements. -/
def renderElems : List Json → String
  | [] => ""
  | [v] => Json.render v
  | v :: vs => Json.render v ++ "," ++ renderElems vs

/-- Comma-separated rendering of object fields, each as
`"key":value`. -/
def renderFields : List (String × Json) → String
  | [] => ""
  | [(k, v)] => String.mk ('"' :: jsonEscape k ++ ['"', ':']) ++ Json.render v
  | (k, v) :: fs =>
    String.mk ('"' :: jsonEscape k ++ ['"', ':']) ++ Json.render v ++ ","
      ++ renderFields fs

end

/-- Modelled from Rust's `String::from_utf8` validation (RFC 3629:
overlong forms, surrogates and values above 0x10FFFF are rejected).
Decodes the byte list starting at running byte index `i`, or reports the
byte index at which the first invalid sequence starts
(`FromUtf8Error::utf8_error().valid_up_to()`). -/
def utf8DecodeFrom : List Nat → Nat → Except Nat (List Char)
  | [], _ => .ok []
  | b1 :: rest, i =>
    if b1 < 128 then
      match utf8DecodeFrom rest (i + 1) with
      | .ok cs => .ok (Char.ofNat b1 :: cs)
      | .error e => .error e
    else if b1 < 194 then .error i
    else if b1 < 224 then
      match rest with
      | b2 :: rest2 =>
        if 128 ≤ b2 ∧ b2 < 192 then
          match utf8DecodeFrom rest2 (i + 2) with
          | .ok cs => .ok (Char.ofNat ((b1 - 192) * 64 + (b2 - 128)) :: cs)
          | .error e => .error e
        else .error i
      | [] => .error i
    else if b1 < 240 then
      match rest with
      | b2 :: b3 :: rest3 =>
        if (if b1 = 224 then 160 ≤ b2 ∧ b2 < 192
            else if b1 = 237 then 128 ≤ b2 ∧ b2 < 160
            else 128 ≤ b2 ∧ b2 < 192) ∧ 128 ≤ b3 ∧ b3 < 192 then
          match utf8DecodeFrom rest3 (i + 3) with
          | .ok cs =>
            .ok (Char.ofNat ((b1 - 224) * 4096 + (b2 - 128) * 64 + (b3 - 128)) :: cs)
          | .error e => .error e
        else .error i
      | _ => .error i
    else if b1 < 245 then
      match rest with
      | b2 :: b3 :: b4 :: rest4 =>
        if (if b1 = 240 then 144 ≤ b2 ∧ b2 < 192
            else if b1 = 244 then 128 ≤ b2 ∧ b2 < 144
            else 128 ≤ b2 ∧ b2 < 192) ∧ 128 ≤ b3 ∧ b3 < 192 ∧ 128 ≤ b4 ∧ b4 < 192 then
          match utf8DecodeFrom rest4 (i + 4) with
          | .ok cs =>
            .ok (Char.ofNat ((b1 - 240) * 262144 + (b2 - 128) * 4096
                  + (b3 - 128) * 64 + (b4 - 128)) :: cs)
          | .error e => .error e
        else .error i
      | _ => .error i
    else .error i

/-- Rust `String::from_utf8`: decode a byte sequence or report the
index of the first invalid byte. -/
def utf8Decode (bs : List Nat) : Except Nat (List Char) :=
  utf8DecodeFrom bs 0

/-- Modelled from the spec (§3, §4.1) and the match arms of
src/endpoint.rs: the request-body encoding tag (`enums.rs` is not under
src/); the exhaustive single-arm match in `execute` forces a single
variant. -/
inductive RequestType where
  | JSON
deriving DecidableEq, Repr

/-- Modelled from the spec (§3, §4.1) and the match arms of
src/endpoint.rs: the response-body encoding tag; the exhaustive
single-arm match in `parse` forces a single variant. -/
inductive ResponseType where
  | JSON
deriving DecidableEq, Repr

/-- Modelled from the spec (§3): the small enumerated set of HTTP
verbs (`enums.rs` is not under src/). -/
inductive RequestMethod where
  | DELETE
  | GET
  | HEAD
  | LIST
  | POST
  | PUT
deriving DecidableEq, Repr

/-- The request descriptor handed to the transport (`client::Request`,
whose fields appear at its construction site in `execute`): absolute
URL, method, query pairs and body bytes. -/
structure Request where
  url : Url
  method : RequestMethod
  query : List (String × Json)
  body : List Nat

/-- Modelled from the spec (§6): the transport collaborator — a base
URL string, and the operation that takes a request descriptor and
returns raw response bytes or a transport failure (`client.rs` is not
under src/; `execute` uses exactly `client.base()` and
`client.execute(request)`). -/
structure Client where
  base : String
  transport : Request → Except ClientError (List Nat)

/-- One conforming endpooint type together with one value of it: the
trait obligations of `Endpoint` (action, method, query, the two
encoding tags, the transform hook) plus the endpoint-specific
`Serialize` and `Deserialize` implementations.  `serialize` models the
outcome of `serde_json::to_string(self)` as a JSON value tree (the
string sent is its compact rendering) or a serialization error;
`decode` models `serde_json::from_str::<Self::Result>`. -/
structure Endpoint (R : Type) where
  action : String
  method : RequestMethod
  query : List (String × Json) := []
  requestBodyType : RequestType := .JSON
  responseBodyType : ResponseType := .JSON
  serialize : Except String Json
  transform : String → Except ClientError String := fun s => .ok s
  decode : String → Except String R

/-- src/endpoint.rs `parse`: propagate a transport failure unchanged;
an empty byte body yields `Ok(None)`; otherwise convert the bytes to
text (failure: `ResponseConversionError` with the raw bytes), apply the
transform hook (its failure propagates), return `Ok(None)` when the
transformed text is empty, and otherwise decode it (failure:
`ResponseParseError` with the transformed text). -/
def parse {R : Type} (ep : Endpoint R) (res : Except ClientError (List Nat)) :
    Except ClientError (Option R) :=
  match res with
  | .error e => .error e
  | .ok body =>
    match body.isEmpty with
    | true => .ok none
    | false =>
      match ep.responseBodyType with
      | .JSON =>
        match utf8Decode body with
        | .error n => .error (.ResponseConversionError n body)
        | .ok chars =>
          match ep.transform (String.mk chars) with
          | .error e => .error e
          | .ok c =>
            match c.isEmpty with
            | true => .ok none
            | false =>
              match ep.decode c with
              | .error msg => .error (.ResponseParseError msg c)
              | .ok r => .ok (some r)

/-- Embed an ordinary `Result` into an `Outcome` (no panic). -/
def Outcome.ofExcept {α : Type} : Except ClientError α → Outcome α
  | .error e => .err e
  | .ok a => .ok a

/-- src/endpoint.rs `Endpoint::execute`: build the URL, serialize the
body (normalizing the literal renderings "null" and "{}" to the empty
string), send the request through the transport, and feed the outcome
to `parse`.  Alongside the result, the list of requests handed to the
transport is returned, so that the number of transport invocations is
part of the model (the source performs the single inline call
`client.execute(Request { url, method, query, body })`). -/
def Endpoint.execute {R : Type} (ep : Endpoint R) (c : Client) :
    Outcome (Option R) × List Request :=
  match build_url ep.action c.base with
  | .panic => (.panic, [])
  | .err e => (.err e, [])
  | .ok url =>
    let method := ep.method
    let query := ep.query
    match ep.requestBodyType with
    | .JSON =>
      match ep.serialize with
      | .error e => (.err (.DataParseError e), [])
      | .ok v =>
        let parse_data := Json.render v
        let body :=
          if parse_data = "null" then ""
          else if parse_data = "{}" then ""
          else parse_data
        let req : Request :=
          { url := url, method := method, query := query,
            body := utf8Encode body.data }
        (Outcome.ofExcept (parse ep (c.transport req)), [req])

/-- A demonstration endpoint: GET "a/b", no query parameters, a value
that serializes to the empty object (so the sent body is normalized to
empty), the default identity transform, and a decoder that always fails
(never reached in the scenarios it is used for). -/
def epDemo : Endpoint Unit :=
  { action := "a/b", method := .GET, query := [],
    requestBodyType := .JSON, responseBodyType := .JSON,
    serialize := .ok (.obj []),
    transform := fun s => .ok s,
    decode := fun _ => .error "bad json" }

/-- Demonstration endpoint whose transform hook rewrites every response
to the empty string. -/
def epEmptying : Endpoint Unit :=
  { epDemo with transform := fun _ => .ok "" }

/-- Demonstration endpoint whose transform hook rejects every
response. -/
def epRejecting : Endpoint Unit :=
  { epDemo with transform := fun _ => .error (.RequestError "api error") }

/-- The JSON value {"data":"hello"} of the spec's body scenario. -/
def vHello : Json := .obj [("data", Json.str "hello")]

/-- Demonstration endpoint serializing to {"data":"hello"}. -/
def epHello : Endpoint Unit :=
  { epDemo with method := .POST, serialize := .ok vHello }

/-- Transport returning zero bytes, base "http://host". -/
def clientEmpty : Client :=
  { base := "http://host", transport := fun _ => .ok [] }

/-- Transport returning the two bytes of "hi", base "http://host". -/
def clientHi : Client :=
  { base := "http://host", transport := fun _ => .ok [104, 105] }

/-- Transport returning one invalid UTF-8 byte, base "http://host". -/
def clientBad : Client :=
  { base := "http://host", transport := fun _ => .ok [255] }

/-- Transport that always fails, base "http://host". -/
def clientDown : Client :=
  { base := "http://host",
    transport := fun _ => .error (.RequestError "connection refused") }

/-- Transport with the cannot-be-a-base base URL "mailto:a@b". -/
def clientMailto : Client :=
  { base := "mailto:a@b", transport := fun _ => .ok [] }

/-- Transport with a malformed base URL. -/
def clientNoUrl : Client :=
  { base := "not a url", transport := fun _ => .ok [] }

/-- The URL built from base "http://host" and action "a/b". -/
def urlAB : Url :=
  { scheme := "http", host := some "host", cannotBeABase := false,
    path := ['/', 'a', '/', 'b'] }

/-- The request the demonstration endpoints send: GET http://host/a/b
with empty body. -/
def reqAB : Request :=
  { url := urlAB, method := .GET, query := [], body := [] }

/-- The request `epHello` sends: POST http://host/a/b with body
{"data":"hello"}. -/
def reqHello : Request :=
  { url := urlAB, method := .POST, query := [],
    body := [123, 34, 100, 97, 116, 97, 34, 58, 34,
             104, 101, 108, 108, 111, 34, 125] }

/-! Lemmas about `splitSlash` and `extendPath`. -/

theorem splitSlash_cons_slash (rest : List Char) :
    splitSlash ('/' :: rest) = [] :: splitSlash rest := by
  simp [splitSlash]

theorem splitSlash_cons_ne (c : Char) (rest : List Char) (hc : c ≠ '/') :
    splitSlash (c :: rest) = consHead c (splitSlash rest) := by
  simp [splitSlash, hc]

theorem splitSlash_ne_nil (cs : List Char) : splitSlash cs ≠ [] := by
  induction cs with
  | nil => simp [splitSlash]
  | cons c rest ih =>
    by_cases hc : c = '/'
    · subst hc; rw [splitSlash_cons_slash]; simp
    · rw [splitSlash_cons_ne c rest hc]
      rcases he : splitSlash rest with _ | ⟨hd, tl⟩
      · exact absurd he ih
      · simp [consHead]

theorem splitSlash_mem_no_slash (cs : List Char) :
    ∀ s ∈ splitSlash cs, '/' ∉ s := by
  induction cs with
  | nil =>
    intro s hmem
    simp [splitSlash] at hmem
    simp [hmem]
  | cons c rest ih =>
    intro s hmem
    by_cases hc : c = '/'
    · subst hc
      rw [splitSlash_cons_slash] at hmem
      rcases List.mem_cons.mp hmem with h | h
      · simp [h]
      · exact ih s h
    · rw [splitSlash_cons_ne c rest hc] at hmem
      rcases he : splitSlash rest with _ | ⟨hd, tl⟩
      · exact absurd he (splitSlash_ne_nil rest)
      · rw [he] at hmem
        simp only [consHead] at hmem
        rcases List.mem_cons.mp hmem with h | h
        · subst h
          intro hin
          rcases List.mem_cons.mp hin with h1 | h1
          · exact hc h1.symm
          · exact ih hd (he ▸ List.mem_cons_self hd tl) h1
        · exact ih s (he ▸ List.mem_cons_of_mem hd h)

theorem utf8EncodeChar_ne_nil (c : Char) : utf8EncodeChar c ≠ [] := by
  simp only [utf8EncodeChar]
  split
  · simp
  · split
    · simp
    · split
      · simp
      · simp

theorem utf8Encode_eq_nil_iff (cs : List Char) : utf8Encode cs = [] ↔ cs = [] := by
  cases cs with
  | nil => simp [utf8Encode]
  | cons c rest => simp [utf8Encode, utf8EncodeChar_ne_nil c]

theorem natDigits_ne_nil (n : Nat) : natDigits n ≠ [] := by
  unfold natDigits
  split
  · simp
  · simp

theorem render_data_ne_nil (v : Json) : (Json.render v).data ≠ [] := by
  cases v with
  | null => decide
  | bool b => cases b <;> decide
  | num n =>
    cases n with
    | ofNat m => simpa [Json.render, renderInt] using natDigits_ne_nil m
    | negSucc m => simp [Json.render, renderInt]
  | str s => simp [Json.render]
  | arr xs => simp [Json.render, String.data_append]
  | obj fs => simp [Json.render, String.data_append]

theorem render_ne_empty (v : Json) : Json.render v ≠ "" := by
  intro h
  exact render_data_ne_nil v (by rw [h])

/-! Helper lemmas about the execution pipeline. -/

theorem Outcome.ofExcept_ne_panic {α : Type} (x : Except ClientError α) :
    Outcome.ofExcept x ≠ .panic := by
  cases x <;> simp [Outcome.ofExcept]

theorem execute_sends {R : Type} (ep : Endpoint R) (c : Client) (req : Request)
    (h : (Endpoint.execute ep c).2 = [req]) :
    (Endpoint.execute ep c).1 = Outcome.ofExcept (parse ep (c.transport req)) := by
  cases hrt : ep.requestBodyType
  rcases hb : build_url ep.action c.base with _ | e | url
  · simp [Endpoint.execute, hrt, hb] at h
  · simp [Endpoint.execute, hrt, hb] at h
  · rcases hser : ep.serialize with e | v
    · simp [Endpoint.execute, hrt, hb, hser] at h
    · simp only [Endpoint.execute, hrt, hb, hser] at h ⊢
      have hreq := (List.cons.injEq _ _ _ _).mp h |>.1
      rw [← hreq]

/-- C2: for an endpoint whose serialization succeeds with value `v` and
whose execution handed request `req` to the transport, the transmitted
body is the empty byte sequence exactly when the serialized form
`Json.render v` is the literal "null" or "{}"; for any other serialized
form the body is the UTF-8 encoding of that exact string.  The fields
of the endpoint are quantified separately, so the statement covers
every method, query, response tag, transform and decoder. -/
theorem execute_body_normalization {R : Type}
    (act : String) (mth : RequestMethod) (q : List (String × Json))
    (rst : ResponseType) (v : Json)
    (t : String → Except ClientError String) (d : String → Except String R)
    (c : Client) (req : Request)
    (htr : (Endpoint.execute ⟨act, mth, q, .JSON, rst, .ok v, t, d⟩ c).2 = [req]) :
    (req.body = [] ↔ (Json.render v = "null" ∨ Json.render v = "{}")) ∧
      ((Json.render v ≠ "null" ∧ Json.render v ≠ "{}") →
        req.body = utf8Encode (Json.render v).data) := by
  rcases hb : build_url act c.base with _ | e | url
  · simp [Endpoint.execute, hb] at htr
  · simp [Endpoint.execute, hb] at htr
  · simp only [Endpoint.execute, hb] at htr
    have hreq : req = Request.mk url mth q
        (utf8Encode (if Json.render v = "null" then ""
          else if Json.render v = "{}" then "" else Json.render v).data) :=
      ((List.cons.injEq _ _ _ _).mp htr).1.symm
    subst hreq
    by_cases h1 : Json.render v = "null"
    · simp [h1, utf8Encode]
    · by_cases h2 : Json.render v = "{}"
      · simp [h1, h2, utf8Encode]
      · rw [if_neg h1, if_neg h2]
        refine ⟨⟨fun hb0 => ?_, fun hor => ?_⟩, fun _ => rfl⟩
        · exact absurd (String.ext ((utf8Encode_eq_nil_iff _).mp hb0))
            (render_ne_empty v)
        · rcases hor with h | h
          · exact absurd h h1
          · exact absurd h h2

/-- Witness for C2 at the endpoint serializing to {"data":"hello"}
(spec scenario): the body is the UTF-8 of that exact string and is not
normalized to empty. -/
theorem execute_body_normalization_witness :
    (reqHello.body = [] ↔ (Json.render vHello = "null" ∨ Json.render vHello = "{}")) ∧
      ((Json.render vHello ≠ "null" ∧ Json.render vHello ≠ "{}") →
        reqHello.body = utf8Encode (Json.render vHello).data) :=
  execute_body_normalization "a/b" .POST [] .JSON vHello (fun s => .ok s)
    (fun _ => (.error "bad json" : Except String Unit)) clientEmpty reqHello (by rfl)

/-- C3 (amended): execution never panics when the configured base URL
parses as a URL that can be a base (a hierarchical URL, which every
http/https base is); every failure is then delivered as a typed error
value.  The original claim — that the `.unwrap()` on
`path_segments_mut()` inside `build_url` is unreachable for every base
string accepted by the URL parser — is refuted by the cannot-be-a-base
counterexample below. -/
theorem execute_no_panic_on_base_url {R : Type} (ep : Endpoint R) (c : Client) (u : Url)
    (hu : Url.parse c.base = .ok u) (hcb : u.cannotBeABase = false) :
    (Endpoint.execute ep c).1 ≠ .panic := by
  have hb : build_url ep.action c.base
      = .ok { u with
          path := extendPath u.isSpecial u.path (splitSlash ep.action.data) } := by
    have h2 : build_url ep.action c.base
        = (if u.cannotBeABase then Outcome.panic
           else Outcome.ok { u with
             path := extendPath u.isSpecial u.path (splitSlash ep.action.data) }) := by
      unfold build_url
      rw [hu]
    rw [h2, if_neg (by simp [hcb])]
  cases hrt : ep.requestBodyType
  rcases hser : ep.serialize with e | v
  · simp [Endpoint.execute, hb, hrt, hser]
  · simp [Endpoint.execute, hb, hrt, hser, Outcome.ofExcept_ne_panic]

/-- Witness for the amended C3 theorem: with base "http://host" the
demonstration endpoint's execution is not a panic. -/
theorem execute_no_panic_on_base_url_witness :
    (Endpoint.execute epDemo clientEmpty).1 ≠ .panic :=
  execute_no_panic_on_base_url epDemo clientEmpty
    { scheme := "http", host := some "host", cannotBeABase := false, path := ['/'] }
    (by rfl) rfl

/-- C3 counterexample: the base "mailto:a@b" is accepted by the URL
parser but cannot be a base, so `path_segments_mut()` returns `Err` and
the `.unwrap()` in `build_url` panics — execution does not return a
`Result` value at all. -/
theorem execute_mailto_panics :
    Url.parse "mailto:a@b"
      = .ok { scheme := "mailto", host := none, cannotBeABase := true,
              path := ['a', '@', 'b'] } ∧
    (Endpoint.execute epDemo clientMailto).1 = .panic :=
  ⟨rfl, rfl⟩

/-- C4: a transport success carrying zero bytes makes execution return
success with an absent result; the transform `t` and the decoder `d`
are arbitrary and do not influence the outcome (they are not
invoked). -/
theorem execute_empty_response_none {R : Type}
    (act : String) (mth : RequestMethod) (q : List (String × Json))
    (rqt : RequestType) (rst : ResponseType) (ser : Except String Json)
    (t : String → Except ClientError String) (d : String → Except String R)
    (c : Client) (req : Request)
    (htr : (Endpoint.execute ⟨act, mth, q, rqt, rst, ser, t, d⟩ c).2 = [req])
    (hres : c.transport req = .ok []) :
    (Endpoint.execute ⟨act, mth, q, rqt, rst, ser, t, d⟩ c).1 = .ok none := by
  rw [execute_sends _ c req htr, hres]
  rfl

/-- Witness for C4: the demonstration endpoint against a transport
returning zero bytes. -/
theorem execute_empty_response_none_witness :
    (Endpoint.execute epDemo clientEmpty).1 = .ok none :=
  execute_empty_response_none "a/b" .GET [] .JSON .JSON (.ok (.obj []))
    (fun s => .ok s) (fun _ => .error "bad json") clientEmpty reqAB (by rfl) rfl

/-- C5: when the transform hook maps the (non-empty) response text to
the empty string, execution returns success with an absent result; the
decoder `d` is arbitrary and not invoked.  The emptiness test that
decides this is on the transformed string, not on the (non-empty)
response bytes. -/
theorem execute_transform_empty_none {R : Type}
    (act : String) (mth : RequestMethod) (q : List (String × Json))
    (rqt : RequestType) (rst : ResponseType) (ser : Except String Json)
    (t : String → Except ClientError String) (d : String → Except String R)
    (c : Client) (req : Request) (bytes : List Nat) (cs : List Char)
    (htr : (Endpoint.execute ⟨act, mth, q, rqt, rst, ser, t, d⟩ c).2 = [req])
    (hres : c.transport req = .ok bytes) (hne : bytes ≠ [])
    (hdec : utf8Decode bytes = .ok cs)
    (hT : t (String.mk cs) = .ok "") :
    (Endpoint.execute ⟨act, mth, q, rqt, rst, ser, t, d⟩ c).1 = .ok none := by
  rw [execute_sends _ c req htr, hres]
  rcases bytes with _ | ⟨b, bs⟩
  · exact absurd rfl hne
  · cases rst
    simp [parse, hdec, hT, Outcome.ofExcept, String.isEmpty]

/-- Witness for C5: a transport returning the bytes of "hi" and a
transform rewriting everything to "". -/
theorem execute_transform_empty_none_witness :
    (Endpoint.execute epEmptying clientHi).1 = .ok none :=
  execute_transform_empty_none "a/b" .GET [] .JSON .JSON (.ok (.obj []))
    (fun _ => .ok "") (fun _ => .error "bad json") clientHi reqAB
    [104, 105] ['h', 'i'] (by rfl) rfl (by decide) rfl rfl

/-- C6: a failure returned by the transform hook becomes the exact
failure of the execution, unmodified; the decoder `d` is arbitrary and
not invoked on that response. -/
theorem execute_transform_failure_propagates {R : Type}
    (act : String) (mth : RequestMethod) (q : List (String × Json))
    (rqt : RequestType) (rst : ResponseType) (ser : Except String Json)
    (t : String → Except ClientError String) (d : String → Except String R)
    (c : Client) (req : Request) (bytes : List Nat) (cs : List Char)
    (e : ClientError)
    (htr : (Endpoint.execute ⟨act, mth, q, rqt, rst, ser, t, d⟩ c).2 = [req])
    (hres : c.transport req = .ok bytes) (hne : bytes ≠ [])
    (hdec : utf8Decode bytes = .ok cs)
    (hT : t (String.mk cs) = .error e) :
    (Endpoint.execute ⟨act, mth, q, rqt, rst, ser, t, d⟩ c).1 = .err e := by
  rw [execute_sends _ c req htr, hres]
  rcases bytes with _ | ⟨b, bs⟩
  · exact absurd rfl hne
  · cases rst
    simp [parse, hdec, hT, Outcome.ofExcept]

/-- Witness for C6: a transform rejecting the response propagates its
exact error. -/
theorem execute_transform_failure_propagates_witness :
    (Endpoint.execute epRejecting clientHi).1
      = .err (.RequestError "api error") :=
  execute_transform_failure_propagates "a/b" .GET [] .JSON .JSON (.ok (.obj []))
    (fun _ => .error (.RequestError "api error")) (fun _ => .error "bad json")
    clientHi reqAB [104, 105] ['h', 'i'] (.RequestError "api error")
    (by rfl) rfl (by decide) rfl rfl

/-- C7: a transport failure is returned unchanged, with no wrapping;
the transform `t` and decoder `d` are arbitrary and not invoked, and no
byte-to-text conversion happens. -/
theorem execute_transport_failure_passthrough {R : Type}
    (act : String) (mth : RequestMethod) (q : List (String × Json))
    (rqt : RequestType) (rst : ResponseType) (ser : Except String Json)
    (t : String → Except ClientError String) (d : String → Except String R)
    (c : Client) (req : Request) (e : ClientError)
    (htr : (Endpoint.execute ⟨act, mth, q, rqt, rst, ser, t, d⟩ c).2 = [req])
    (hres : c.transport req = .error e) :
    (Endpoint.execute ⟨act, mth, q, rqt, rst, ser, t, d⟩ c).1 = .err e := by
  rw [execute_sends _ c req htr, hres]
  rfl

/-- Witness for C7: a failing transport's error comes back verbatim. -/
theorem execute_transport_failure_passthrough_witness :
    (Endpoint.execute epDemo clientDown).1
      = .err (.RequestError "connection refused") :=
  execute_transport_failure_passthrough "a/b" .GET [] .JSON .JSON (.ok (.obj []))
    (fun s => .ok s) (fun _ => .error "bad json") clientDown reqAB
    (.RequestError "connection refused") (by rfl) rfl

/-- C8: a non-empty response that is not valid UTF-8 makes execution
fail with a response-conversion error carrying the underlying cause
(the number of valid bytes) and exactly the raw response bytes; the
transform `t` and decoder `d` are arbitrary and not invoked. -/
theorem execute_invalid_utf8_conversion_error {R : Type}
    (act : String) (mth : RequestMethod) (q : List (String × Json))
    (rqt : RequestType) (rst : ResponseType) (ser : Except String Json)
    (t : String → Except ClientError String) (d : String → Except String R)
    (c : Client) (req : Request) (bytes : List Nat) (n : Nat)
    (htr : (Endpoint.execute ⟨act, mth, q, rqt, rst, ser, t, d⟩ c).2 = [req])
    (hres : c.transport req = .ok bytes) (hne : bytes ≠ [])
    (hbad : utf8Decode bytes = .error n) :
    (Endpoint.execute ⟨act, mth, q, rqt, rst, ser, t, d⟩ c).1
      = .err (.ResponseConversionError n bytes) := by
  rw [execute_sends _ c req htr, hres]
  rcases bytes with _ | ⟨b, bs⟩
  · exact absurd rfl hne
  · cases rst
    simp [parse, hbad, Outcome.ofExcept]

/-- Witness for C8: the single byte 0xff is not valid UTF-8; the error
carries it and the valid prefix length 0. -/
theorem execute_invalid_utf8_conversion_error_witness :
    (Endpoint.execute epDemo clientBad).1
      = .err (.ResponseConversionError 0 [255]) :=
  execute_invalid_utf8_conversion_error "a/b" .GET [] .JSON .JSON (.ok (.obj []))
    (fun s => .ok s) (fun _ => .error "bad json") clientBad reqAB [255] 0
    (by rfl) rfl (by decide) rfl

/-- C9: when the transformed response text is non-empty and the decoder
rejects it, execution fails with a response-parse error carrying the
underlying decode error and exactly the transformed text. -/
theorem execute_decode_failure_parse_error {R : Type}
    (act : String) (mth : RequestMethod) (q : List (String × Json))
    (rqt : RequestType) (rst : ResponseType) (ser : Except String Json)
    (t : String → Except ClientError String) (d : String → Except String R)
    (c : Client) (req : Request) (bytes : List Nat) (cs : List Char)
    (s : String) (msg : String)
    (htr : (Endpoint.execute ⟨act, mth, q, rqt, rst, ser, t, d⟩ c).2 = [req])
    (hres : c.transport req = .ok bytes) (hne : bytes ≠ [])
    (hdec : utf8Decode bytes = .ok cs)
    (hT : t (String.mk cs) = .ok s) (hs : s ≠ "")
    (hd : d s = .error msg) :
    (Endpoint.execute ⟨act, mth, q, rqt, rst, ser, t, d⟩ c).1
      = .err (.ResponseParseError msg s) := by
  rw [execute_sends _ c req htr, hres]
  rcases bytes with _ | ⟨b, bs⟩
  · exact absurd rfl hne
  · cases rst
    have hsi : s.isEmpty = false := by
      rcases hse : s.isEmpty
      · rfl
      · exact absurd ((String.isEmpty_iff s).mp hse) hs
    simp [parse, hdec, hT, hsi, hd, Outcome.ofExcept]

/-- Witness for C9: the response "hi" passes through the identity
transform and the decoder rejects it. -/
theorem execute_decode_failure_parse_error_witness :
    (Endpoint.execute epDemo clientHi).1
      = .err (.ResponseParseError "bad json" "hi") :=
  execute_decode_failure_parse_error "a/b" .GET [] .JSON .JSON (.ok (.obj []))
    (fun s => .ok s) (fun _ => .error "bad json") clientHi reqAB
    [104, 105] ['h', 'i'] "hi" "bad json" (by rfl) rfl (by decide) rfl rfl
    (by decide) rfl

/-- C10 (amended): per call of execute the transport is invoked at most
once — never twice (no retries, no caching) — and exactly once
precisely when URL construction and body serialization both succeed;
when either of those fails the transport is invoked zero times.  The
original "exactly once for every outcome of URL construction" is
refuted by the zero-invocation counterexample below. -/
theorem execute_transport_at_most_once {R : Type} (ep : Endpoint R) (c : Client) :
    (Endpoint.execute ep c).2.length ≤ 1 ∧
      ((Endpoint.execute ep c).2.length = 1 ↔
        ((∃ u, build_url ep.action c.base = .ok u) ∧ ∃ v, ep.serialize = .ok v)) := by
  cases hrt : ep.requestBodyType
  rcases hb : build_url ep.action c.base with _ | e | url
  · simp [Endpoint.execute, hrt, hb]
  · simp [Endpoint.execute, hrt, hb]
  · rcases hser : ep.serialize with e | v
    · simp [Endpoint.execute, hrt, hb, hser]
    · simp [Endpoint.execute, hrt, hb, hser]

/-- C10 counterexample: with the malformed base "not a url", URL
construction fails and the transport is invoked zero times in that
call of execute, not exactly once. -/
theorem execute_zero_invocations_on_bad_base :
    (Endpoint.execute epDemo clientNoUrl).2.length = 0 ∧
      (Endpoint.execute epDemo clientNoUrl).2.length ≠ 1 :=
  ⟨rfl, by decide⟩
